import Mathlib

/-!
Verification of the Genesis presentation engine (src/presentation) against its
natural-language specification.

The Python modules `design.py`, `charts.py` and `engine.py` are shallowly
embedded below: dictionaries of colors become structures, the palette
registry becomes a partial map from names, chart/slide dispatch becomes
matches on strings, and the slide-processing loop of `generate` becomes a
fold over a state record.  Numeric chart values are embedded as rationals
(Python floats are used only for plain arithmetic and comparisons here).
-/

namespace Genesis

/-! ## design.py — ColorPalette and the palette registry -/

/-- `ColorPalette` dataclass of `design.py`, with its field defaults. -/
structure ColorPalette where
  navy : String := "#0C2340"
  gold : String := "#B8860B"
  white : String := "#FFFFFF"
  chart_primary : String := "#003366"
  chart_secondary : String := "#117ACA"
  green : String := "#2E865F"
  red : String := "#CC0000"
  orange : String := "#E8792B"
  body_text : String := "#2C3E50"
  gray : String := "#666666"
  source_color : String := "#999999"
  light_gray : String := "#E0E0E0"
  chart_bg : String := "#FAFBFC"
  fig_bg : String := "#FFFFFF"
  slide_bg : String := "#FFFFFF"
  title_color : String := "#0C2340"
  card_bg : String := "#F5F5F5"
  card_border : String := "#E0E0E0"
  extra_colors : List String :=
    ["#5B9BD5", "#ED7D31", "#A5A5A5", "#FFC000", "#4472C4", "#70AD47"]
  series_cycle : List String :=
    ["#003366", "#117ACA", "#2E865F", "#CC0000",
     "#5B9BD5", "#E8792B", "#666666", "#003B6F"]
  deriving DecidableEq, Repr

/-- The `"crossinvest_navy_gold"` entry of the `PALETTES` dict. -/
def crossinvest_navy_gold : ColorPalette :=
  { navy := "#24618e"
    gold := "#B8860B"
    chart_primary := "#24618e"
    chart_secondary := "#3566bb"
    chart_bg := "#FFFFFF"
    green := "#2E865F"
    red := "#C0392B"
    orange := "#D46A28"
    gray := "#6C757D"
    source_color := "#999999"
    light_gray := "#D5D8DC"
    series_cycle :=
      ["#24618e", "#D46A28", "#2E865F", "#C0392B",
       "#5B9BD5", "#B8860B", "#6C757D", "#003B6F"] }

/-- The `"corporate_blue"` entry of the `PALETTES` dict. -/
def corporate_blue : ColorPalette :=
  { navy := "#1B365D", gold := "#C5A55A", chart_primary := "#2C5F8A"
    chart_secondary := "#4A90D9", green := "#28A745", red := "#DC3545" }

/-- The `"minimal_bw"` entry of the `PALETTES` dict. -/
def minimal_bw : ColorPalette :=
  { navy := "#1A1A1A", gold := "#888888", chart_primary := "#333333"
    chart_secondary := "#666666", green := "#2D6A2D", red := "#8B0000"
    chart_bg := "#FFFFFF" }

/-- The `"crossinvest_dark"` entry of the `PALETTES` dict. -/
def crossinvest_dark : ColorPalette :=
  { navy := "#0D2137"
    gold := "#F0B90B"
    white := "#FFFFFF"
    chart_primary := "#00D4FF"
    chart_secondary := "#7B61FF"
    green := "#00E676"
    red := "#FF5252"
    orange := "#FFB74D"
    body_text := "#E8EDF3"
    gray := "#8899AA"
    source_color := "#5A7B8D"
    light_gray := "#1E2D42"
    chart_bg := "#0F1B2D"
    fig_bg := "#0A1628"
    slide_bg := "#0D1B2A"
    title_color := "#FFFFFF"
    card_bg := "#152238"
    card_border := "#1E3454"
    extra_colors := ["#FF6EC7", "#00BFA5", "#FFCA28", "#448AFF", "#FF7043", "#CE93D8"]
    series_cycle :=
      ["#00D4FF", "#FF5252", "#00E676", "#7B61FF",
       "#FFB74D", "#00BFA5", "#FF6EC7", "#448AFF"] }

/-- The `"jpm_gttm"` entry of the `PALETTES` dict. -/
def jpm_gttm : ColorPalette :=
  { navy := "#004B87"
    gold := "#E8941A"
    chart_primary := "#002D59"
    chart_secondary := "#0078CF"
    green := "#00875D"
    red := "#E52135"
    orange := "#C75300"
    body_text := "#3A3F44"
    gray := "#72777D"
    source_color := "#72777D"
    light_gray := "#D3D5D8"
    chart_bg := "#FFFFFF"
    fig_bg := "#FFFFFF"
    slide_bg := "#FFFFFF"
    title_color := "#004B87"
    card_bg := "#F5F7F8"
    card_border := "#D3D5D8"
    extra_colors := ["#1B7F9E", "#9ABDF5", "#A25BAD", "#C7DEFF"]
    series_cycle :=
      ["#002D59", "#0078CF", "#1B7F9E", "#72777D",
       "#9ABDF5", "#00875D", "#C75300", "#A25BAD"] }

/-- The `"goldman_sachs"` entry of the `PALETTES` dict. -/
def goldman_sachs : ColorPalette :=
  { navy := "#00355F"
    gold := "#7399C6"
    chart_primary := "#00355F"
    chart_secondary := "#7399C6"
    green := "#2E8540"
    red := "#C5283D"
    orange := "#E69F00"
    body_text := "#231F20"
    gray := "#58575A"
    source_color := "#58575A"
    light_gray := "#E0E0E0"
    chart_bg := "#FFFFFF"
    fig_bg := "#FFFFFF"
    slide_bg := "#FFFFFF"
    title_color := "#00355F"
    card_bg := "#F5F5F5"
    card_border := "#D0D0D0"
    extra_colors := ["#ACD4F1", "#64A8F0", "#2178C4", "#7F90AC"]
    series_cycle :=
      ["#00355F", "#7399C6", "#ACD4F1", "#64A8F0",
       "#2178C4", "#7F90AC", "#231F20", "#58575A"] }

/-- The `"indosuez"` entry of the `PALETTES` dict. -/
def indosuez : ColorPalette :=
  { navy := "#1B3764"
    gold := "#C5A76B"
    chart_primary := "#1B3764"
    chart_secondary := "#4A7FB5"
    green := "#2E865F"
    red := "#722F37"
    orange := "#D4AF37"
    body_text := "#333333"
    gray := "#6B6B6B"
    source_color := "#999999"
    light_gray := "#E8E4DF"
    chart_bg := "#FFFFFF"
    fig_bg := "#FFFFFF"
    slide_bg := "#FFFFFF"
    title_color := "#1B3764"
    card_bg := "#F5F3F0"
    card_border := "#E8E4DF"
    extra_colors := ["#0F2340", "#722F37", "#8C8C8C", "#D4AF37"]
    series_cycle :=
      ["#1B3764", "#C5A76B", "#4A7FB5", "#722F37",
       "#0F2340", "#8C8C8C", "#D4AF37", "#333333"] }

/-- The `"blackrock_bii"` entry of the `PALETTES` dict. -/
def blackrock_bii : ColorPalette :=
  { navy := "#000000"
    gold := "#FFCE00"
    chart_primary := "#000000"
    chart_secondary := "#FF4713"
    green := "#00B050"
    red := "#FF4713"
    orange := "#FFC000"
    body_text := "#333333"
    gray := "#808080"
    source_color := "#808080"
    light_gray := "#E5E5E5"
    chart_bg := "#FFFFFF"
    fig_bg := "#FFFFFF"
    slide_bg := "#FFFFFF"
    title_color := "#000000"
    card_bg := "#F4F1EB"
    card_border := "#E5E5E5"
    extra_colors := ["#009688", "#F4F1EB", "#666666", "#FFCE00"]
    series_cycle :=
      ["#000000", "#FF4713", "#00B050", "#FFC000",
       "#009688", "#808080", "#666666", "#333333"] }

/-- The `"okabe_ito"` entry of the `PALETTES` dict. -/
def okabe_ito : ColorPalette :=
  { navy := "#000000"
    gold := "#E69F00"
    white := "#FFFFFF"
    chart_primary := "#0072B2"
    chart_secondary := "#56B4E9"
    green := "#009E73"
    red := "#D55E00"
    orange := "#E69F00"
    body_text := "#1A1A2E"
    gray := "#666666"
    source_color := "#999999"
    light_gray := "#E0E0E0"
    chart_bg := "#FFFFFF"
    fig_bg := "#FFFFFF"
    slide_bg := "#FFFFFF"
    title_color := "#1A1A2E"
    card_bg := "#F5F5F5"
    card_border := "#E0E0E0"
    extra_colors := ["#F0E442", "#CC79A7", "#000000", "#56B4E9"]
    series_cycle :=
      ["#E69F00", "#56B4E9", "#009E73", "#F0E442",
       "#0072B2", "#D55E00", "#CC79A7", "#000000"] }

/-- The `"blue_orange_diverging"` entry of the `PALETTES` dict. -/
def blue_orange_diverging : ColorPalette :=
  { navy := "#2166AC"
    gold := "#F4A582"
    white := "#FFFFFF"
    chart_primary := "#2166AC"
    chart_secondary := "#4393C3"
    green := "#4DAF4A"
    red := "#B2182B"
    orange := "#E66101"
    body_text := "#1A1A2E"
    gray := "#666666"
    source_color := "#999999"
    light_gray := "#E0E0E0"
    chart_bg := "#FFFFFF"
    fig_bg := "#FFFFFF"
    slide_bg := "#FFFFFF"
    title_color := "#1A1A2E"
    card_bg := "#F7F7F7"
    card_border := "#D1D1D1"
    extra_colors := ["#92C5DE", "#D6604D", "#F4A582", "#FDDBC7"]
    series_cycle :=
      ["#2166AC", "#4393C3", "#92C5DE", "#F7F7F7",
       "#FDDBC7", "#F4A582", "#D6604D", "#B2182B"] }

/-- The `"swiss_institutional"` entry of the `PALETTES` dict. -/
def swiss_institutional : ColorPalette :=
  { navy := "#003366"
    gold := "#8d6e63"
    white := "#FFFFFF"
    chart_primary := "#003366"
    chart_secondary := "#4A90D9"
    green := "#2E865F"
    red := "#C0392B"
    orange := "#D4A056"
    body_text := "#2C3E50"
    gray := "#6B7B8D"
    source_color := "#8899AA"
    light_gray := "#D5D8DC"
    chart_bg := "#FAFBFC"
    fig_bg := "#FFFFFF"
    slide_bg := "#F5F5F5"
    title_color := "#003366"
    card_bg := "#FFFFFF"
    card_border := "#D5D8DC"
    extra_colors := ["#5B9BD5", "#8d6e63", "#A5C882", "#D4A056", "#7986CB", "#90A4AE"]
    series_cycle :=
      ["#003366", "#4A90D9", "#2E865F", "#C0392B",
       "#8d6e63", "#5B9BD5", "#D4A056", "#7986CB"] }

/-- The `"rossignoli_editorial"` entry of the `PALETTES` dict. -/
def rossignoli_editorial : ColorPalette :=
  { navy := "#2C3E50"
    gold := "#E8792B"
    white := "#FFFFFF"
    chart_primary := "#2C3E50"
    chart_secondary := "#4A90D9"
    green := "#27AE60"
    red := "#C0392B"
    orange := "#E8792B"
    body_text := "#2C3E50"
    gray := "#6B7B8D"
    source_color := "#8899AA"
    light_gray := "#D5D8DC"
    chart_bg := "#FAFBFC"
    fig_bg := "#FFFFFF"
    slide_bg := "#FFFFFF"
    title_color := "#E8792B"
    card_bg := "#FFFFFF"
    card_border := "#E0E0E0"
    extra_colors := ["#5B9BD5", "#8E44AD", "#D4A056", "#1ABC9C", "#F39C12", "#34495E"]
    series_cycle :=
      ["#2C3E50", "#4A90D9", "#27AE60", "#C0392B",
       "#E8792B", "#8E44AD", "#D4A056", "#1ABC9C"] }

/-- The `"morgan_stanley"` entry of the `PALETTES` dict. -/
def morgan_stanley : ColorPalette :=
  { navy := "#00263A"
    gold := "#C48A00"
    chart_primary := "#003C71"
    chart_secondary := "#1A6BA8"
    green := "#2E8540"
    red := "#C5283D"
    orange := "#C48A00"
    body_text := "#333333"
    gray := "#6A7B8A"
    source_color := "#6A7B8A"
    light_gray := "#E5E5E5"
    chart_bg := "#FFFFFF"
    fig_bg := "#FFFFFF"
    slide_bg := "#FFFFFF"
    title_color := "#00263A"
    card_bg := "#F5F5F5"
    card_border := "#E0E0E0"
    extra_colors := ["#4D94C8", "#80B8DE", "#D1E4F1", "#BFBFBF"]
    series_cycle :=
      ["#003C71", "#1A6BA8", "#4D94C8", "#80B8DE",
       "#D1E4F1", "#6A7B8A", "#C5283D", "#C48A00"] }

/-- The `PALETTES` dict of `design.py` as a partial map from palette names. -/
def PALETTES : String → Option ColorPalette := fun name =>
  match name with
  | "crossinvest_navy_gold" => some crossinvest_navy_gold
  | "corporate_blue" => some corporate_blue
  | "minimal_bw" => some minimal_bw
  | "crossinvest_dark" => some crossinvest_dark
  | "jpm_gttm" => some jpm_gttm
  | "goldman_sachs" => some goldman_sachs
  | "indosuez" => some indosuez
  | "blackrock_bii" => some blackrock_bii
  | "okabe_ito" => some okabe_ito
  | "blue_orange_diverging" => some blue_orange_diverging
  | "swiss_institutional" => some swiss_institutional
  | "rossignoli_editorial" => some rossignoli_editorial
  | "morgan_stanley" => some morgan_stanley
  | _ => none

/-- `get_palette` of `design.py`: `PALETTES.get(name, PALETTES["crossinvest_navy_gold"])`.
The fallback indexes the dict at the literal key `"crossinvest_navy_gold"`,
whose entry is `crossinvest_navy_gold` above. -/
def get_palette (name : String) : ColorPalette :=
  match PALETTES name with
  | some p => p
  | none => crossinvest_navy_gold

/-- C8: `get_palette(name)` returns the `ColorPalette` registered under `name`
in `PALETTES`, and for every name not present in the registry it returns the
default `"crossinvest_navy_gold"` palette rather than raising an error. -/
theorem get_palette_registered_or_default (name : String) :
    (∀ p : ColorPalette, PALETTES name = some p → get_palette name = p) ∧
    (PALETTES name = none → get_palette name = crossinvest_navy_gold) := by
  constructor
  · intro p hp
    simp [get_palette, hp]
  · intro hp
    simp [get_palette, hp]

/-- Witness for C8: `"corporate_blue"` is registered and returned as such, and
the unregistered name `"no_such_palette"` falls back to the default palette. -/
theorem get_palette_registered_or_default_witness :
    get_palette "corporate_blue" = corporate_blue ∧
    get_palette "no_such_palette" = crossinvest_navy_gold := by
  refine ⟨?_, ?_⟩
  · exact (get_palette_registered_or_default "corporate_blue").1 corporate_blue rfl
  · exact (get_palette_registered_or_default "no_such_palette").2 rfl

/-! ## charts.py — render_chart dispatch -/

/-- The sixteen chart renderers of `charts.py`, one constructor per function
appearing in the `renderers` dict of `render_chart`. -/
inductive ChartKind where
  | line
  | bar
  | hbar
  | stacked_bar
  | table_heatmap
  | gauge
  | donut_matrix
  | waterfall
  | return_quilt
  | scatter
  | sparkline_table
  | lollipop
  | dumbbell
  | area
  | bump
  | small_multiples
  deriving DecidableEq, Repr

/-- The `renderers` dict of `render_chart` (charts.py lines 94-111), as a
lookup from the chart-type string: `renderers.get(chart_type)`. -/
def renderers (t : String) : Option ChartKind :=
  if t = "line" then some .line
  else if t = "bar" then some .bar
  else if t = "hbar" then some .hbar
  else if t = "stacked_bar" then some .stacked_bar
  else if t = "table_heatmap" then some .table_heatmap
  else if t = "gauge" then some .gauge
  else if t = "donut_matrix" then some .donut_matrix
  else if t = "waterfall" then some .waterfall
  else if t = "return_quilt" then some .return_quilt
  else if t = "scatter" then some .scatter
  else if t = "sparkline_table" then some .sparkline_table
  else if t = "lollipop" then some .lollipop
  else if t = "dumbbell" then some .dumbbell
  else if t = "area" then some .area
  else if t = "bump" then some .bump
  else if t = "small_multiples" then some .small_multiples
  else none

/-- Dispatch step of `render_chart` (charts.py lines 113-117): an unknown
chart type raises `ValueError(f"Unknown chart type: {chart_type}")`,
a known one calls the selected renderer. -/
def render_chart (chart_type : String) : Except String ChartKind :=
  match renderers chart_type with
  | some r => Except.ok r
  | none => Except.error ("Unknown chart type: " ++ chart_type)

/-- The sixteen chart-type strings accepted by `render_chart`. -/
def chartTypeNames : List String :=
  ["line", "bar", "hbar", "stacked_bar", "table_heatmap", "gauge",
   "donut_matrix", "waterfall", "return_quilt", "scatter", "sparkline_table",
   "lollipop", "dumbbell", "area", "bump", "small_multiples"]

/-- C1: `render_chart` dispatches the chart-type string to exactly one of the
16 renderer functions, and every type string outside this set raises a
`ValueError` instead of returning a path. -/
theorem render_chart_dispatch :
    render_chart "line" = .ok .line ∧
    render_chart "bar" = .ok .bar ∧
    render_chart "hbar" = .ok .hbar ∧
    render_chart "stacked_bar" = .ok .stacked_bar ∧
    render_chart "table_heatmap" = .ok .table_heatmap ∧
    render_chart "gauge" = .ok .gauge ∧
    render_chart "donut_matrix" = .ok .donut_matrix ∧
    render_chart "waterfall" = .ok .waterfall ∧
    render_chart "return_quilt" = .ok .return_quilt ∧
    render_chart "scatter" = .ok .scatter ∧
    render_chart "sparkline_table" = .ok .sparkline_table ∧
    render_chart "lollipop" = .ok .lollipop ∧
    render_chart "dumbbell" = .ok .dumbbell ∧
    render_chart "area" = .ok .area ∧
    render_chart "bump" = .ok .bump ∧
    render_chart "small_multiples" = .ok .small_multiples ∧
    ∀ s : String, s ∉ chartTypeNames →
      render_chart s = .error ("Unknown chart type: " ++ s) := by
  refine ⟨rfl, rfl, rfl, rfl, rfl, rfl, rfl, rfl, rfl, rfl, rfl, rfl, rfl,
    rfl, rfl, rfl, ?_⟩
  intro s hs
  simp only [chartTypeNames, List.mem_cons, List.not_mem_nil, or_false,
    not_or] at hs
  obtain ⟨h1, h2, h3, h4, h5, h6, h7, h8, h9, h10, h11, h12, h13, h14, h15,
    h16⟩ := hs
  simp [render_chart, renderers, h1, h2, h3, h4, h5, h6, h7, h8, h9, h10,
    h11, h12, h13, h14, h15, h16]

/-- Witness for C1: the unregistered type string `"pie"` raises. -/
theorem render_chart_dispatch_witness :
    render_chart "pie" = .error ("Unknown chart type: " ++ "pie") :=
  render_chart_dispatch.2.2.2.2.2.2.2.2.2.2.2.2.2.2.2.2 "pie" (by decide)

/-! ## charts.py — bar / hbar color selection -/

/-- Single-series color choice of `render_bar` (charts.py line 398):
`[palette.green if v >= 0 else palette.red for v in values]`. -/
def render_bar_single_colors (palette : ColorPalette) (values : List ℚ) :
    List String :=
  values.map (fun v => if 0 ≤ v then palette.green else palette.red)

/-- Default coloring loop of `render_hbar` (charts.py lines 526-535). -/
def render_hbar_colors (palette : ColorPalette) (values : List ℚ) :
    List String :=
  values.map (fun v =>
    if v < -5 then palette.red
    else if v < 0 then "#E57373"
    else if v < 5 then palette.green
    else palette.chart_primary)

/-- C6 counterexample: in `render_hbar`, the bar for the non-negative value 10
is NOT filled with the palette's green — it gets `palette.chart_primary`
(`"#24618e"`, a blue, in the default palette) — so hbar coloring is not
picked purely on the sign of the value. -/
theorem render_hbar_not_sign_colored :
    render_hbar_colors crossinvest_navy_gold [10] ≠
      [crossinvest_navy_gold.green] := by
  decide

/-- C6 amended: `render_bar`'s single-series colors are sign-based (green for
`v >= 0`, red otherwise), while `render_hbar` buckets each value by
thresholds: `v < -5` gets `palette.red`, `-5 <= v < 0` the light red
`"#E57373"`, `0 <= v < 5` `palette.green`, and `v >= 5`
`palette.chart_primary`; in particular every negative hbar value still gets
one of the two red shades. -/
theorem bar_hbar_color_rules (palette : ColorPalette) (values : List ℚ)
    (i : Nat) (hi : i < values.length) :
    (render_bar_single_colors palette values).getD i "" =
      (if 0 ≤ values.getD i 0 then palette.green else palette.red) ∧
    (render_hbar_colors palette values).getD i "" =
      (if values.getD i 0 < -5 then palette.red
       else if values.getD i 0 < 0 then "#E57373"
       else if values.getD i 0 < 5 then palette.green
       else palette.chart_primary) ∧
    (values.getD i 0 < 0 →
      (render_hbar_colors palette values).getD i "" = palette.red ∨
      (render_hbar_colors palette values).getD i "" = "#E57373") := by
  have hb : i < (render_bar_single_colors palette values).length := by
    simpa [render_bar_single_colors] using hi
  have hh : i < (render_hbar_colors palette values).length := by
    simpa [render_hbar_colors] using hi
  rw [List.getD_eq_getElem _ _ hb, List.getD_eq_getElem _ _ hh,
    List.getD_eq_getElem _ _ hi]
  simp only [render_bar_single_colors, render_hbar_colors, List.getElem_map]
  refine ⟨trivial, trivial, ?_⟩
  intro hneg
  by_cases h5 : values[i] < -5
  · left; simp [h5]
  · right; simp [h5, hneg]

/-- Witness for C6 amended: the value `-2` in position 0. -/
theorem bar_hbar_color_rules_witness :
    (0 : Nat) < ([(-2 : ℚ)]).length ∧
    ((render_bar_single_colors crossinvest_navy_gold [(-2 : ℚ)]).getD 0 "" =
      (if (0 : ℚ) ≤ ([(-2 : ℚ)]).getD 0 0 then crossinvest_navy_gold.green
       else crossinvest_navy_gold.red) ∧
    (render_hbar_colors crossinvest_navy_gold [(-2 : ℚ)]).getD 0 "" =
      (if ([(-2 : ℚ)]).getD 0 0 < -5 then crossinvest_navy_gold.red
       else if ([(-2 : ℚ)]).getD 0 0 < 0 then "#E57373"
       else if ([(-2 : ℚ)]).getD 0 0 < 5 then crossinvest_navy_gold.green
       else crossinvest_navy_gold.chart_primary) ∧
    (([(-2 : ℚ)]).getD 0 0 < 0 →
      (render_hbar_colors crossinvest_navy_gold [(-2 : ℚ)]).getD 0 "" =
          crossinvest_navy_gold.red ∨
      (render_hbar_colors crossinvest_navy_gold [(-2 : ℚ)]).getD 0 "" =
          "#E57373")) :=
  ⟨by decide, bar_hbar_color_rules crossinvest_navy_gold [(-2 : ℚ)] 0 (by decide)⟩

/-! ## charts.py — render_return_quilt ranked grid -/

/-- Ordering of (return, asset) cells by descending return value. -/
def quilt_ge (a b : ℚ × String) : Prop := b.1 ≤ a.1

instance : DecidableRel quilt_ge := fun a b =>
  inferInstanceAs (Decidable (b.1 ≤ a.1))

instance : IsTotal (ℚ × String) quilt_ge := ⟨fun a b => le_total b.1 a.1⟩

instance : IsTrans (ℚ × String) quilt_ge :=
  ⟨fun _ _ _ h1 h2 => le_trans h2 h1⟩

/-- One year's ranked column of `render_return_quilt` (charts.py lines
1215-1221): `np.argsort(col)[::-1]` (ascending argsort, reversed) gathers the
year's returns in descending order together with the asset at the same index.
Embedded as a descending insertion sort of the zipped (return, asset) pairs;
argsort's order on equal values is unspecified (quicksort), so any descending
sort is a faithful model. -/
def quilt_column (col : List ℚ) (assets : List String) : List (ℚ × String) :=
  List.insertionSort quilt_ge (col.zip assets)

/-- The per-year loop of `render_return_quilt` (lines 1212-1221): one ranked
column per entry of `returns`. -/
def render_return_quilt_columns (returns : List (List ℚ))
    (assets : List String) : List (List (ℚ × String)) :=
  returns.map (fun col => quilt_column col assets)

/-- C4: in `render_return_quilt`, every year's ranked grid column consists of
that year's return values sorted in descending order (best return at the
top), each cell paired with the name of the asset that produced that return
(the column is a permutation of the year's (return, asset) pairs). -/
theorem return_quilt_columns_ranked (returns : List (List ℚ))
    (assets : List String) (col : List ℚ) (hcol : col ∈ returns) :
    ((quilt_column col assets).map Prod.fst).Sorted (· ≥ ·) ∧
    (quilt_column col assets).Perm (col.zip assets) ∧
    quilt_column col assets ∈ render_return_quilt_columns returns assets := by
  refine ⟨?_, ?_, ?_⟩
  · exact (List.pairwise_map).mpr (List.sorted_insertionSort quilt_ge _)
  · exact List.perm_insertionSort quilt_ge (col.zip assets)
  · exact List.mem_map_of_mem _ hcol

/-- Witness for C4: a one-year grid over three assets. -/
theorem return_quilt_columns_ranked_witness :
    [(1 : ℚ), 3, 2] ∈ [[(1 : ℚ), 3, 2]] ∧
    (((quilt_column [(1 : ℚ), 3, 2] ["A", "B", "C"]).map Prod.fst).Sorted
        (· ≥ ·) ∧
      (quilt_column [(1 : ℚ), 3, 2] ["A", "B", "C"]).Perm
        ([(1 : ℚ), 3, 2].zip ["A", "B", "C"]) ∧
      quilt_column [(1 : ℚ), 3, 2] ["A", "B", "C"] ∈
        render_return_quilt_columns [[(1 : ℚ), 3, 2]] ["A", "B", "C"]) :=
  ⟨by decide,
   return_quilt_columns_ranked [[(1 : ℚ), 3, 2]] ["A", "B", "C"]
     [(1 : ℚ), 3, 2] (by decide)⟩

/-! ## charts.py — render_waterfall running totals -/

/-- Default `is_total` of `render_waterfall` (charts.py line 1133):
`[i == 0 or i == len(values) - 1 for i in range(len(values))]`. -/
def waterfall_default_is_total (n : Nat) : List Bool :=
  (List.range n).map (fun i => decide (i = 0) || decide (i = n - 1))

/-- Measure list of `render_waterfall` (charts.py lines 1136-1143): totals
become `"absolute"`; the others become `"relative"` whatever the sign of
`values[i]` (the source tests `values[i] >= 0` but both branches append
`"relative"`). -/
def waterfall_measure (values : List ℚ) (is_total : List Bool) : List String :=
  is_total.enum.map (fun p =>
    if p.2 then "absolute"
    else if 0 ≤ values.getD p.1 0 then "relative" else "relative")

/-- Modelled from the spec: the bar placement of the third-party
`plotly.graph_objects.Waterfall` trace that `render_waterfall` feeds (not part
of src). Bars are laid out left to right with a running total: an
`"absolute"` bar spans from 0 to its own value and resets the running total
to that value; a `"relative"` bar spans from the current running total to the
running total plus its value. Each bar is returned as a (start, end) pair. -/
def waterfall_place : ℚ → List (ℚ × String) → List (ℚ × ℚ)
  | _, [] => []
  | run, (v, m) :: rest =>
      if m = "absolute" then (0, v) :: waterfall_place v rest
      else (run, run + v) :: waterfall_place (run + v) rest

/-- Running total left after placing a list of measured bars. -/
def waterfall_run_after : ℚ → List (ℚ × String) → ℚ
  | run, [] => run
  | run, (v, m) :: rest =>
      waterfall_run_after (if m = "absolute" then v else run + v) rest

/-- Bars produced by `render_waterfall` for given values and `is_total`
flags: the measure list of the source combined with the Plotly placement. -/
def render_waterfall_bars (values : List ℚ) (is_total : List Bool) :
    List (ℚ × ℚ) :=
  waterfall_place 0 (values.zip (waterfall_measure values is_total))

lemma waterfall_measure_eq (values : List ℚ) (flags : List Bool) :
    waterfall_measure values flags =
      flags.map (fun t => if t then "absolute" else "relative") := by
  unfold waterfall_measure
  have h : (fun p : Nat × Bool =>
      if p.2 then "absolute"
      else if 0 ≤ values.getD p.1 0 then "relative" else "relative") =
      (fun t => if t then "absolute" else "relative") ∘ Prod.snd := by
    funext p
    by_cases hp : p.2 <;> simp [hp]
  rw [h, ← List.map_map, List.enum_map_snd]

lemma range_map_decide_eq_last (m : Nat) :
    (List.range (m + 1)).map (fun i => decide (i = m)) =
      List.replicate m false ++ [true] := by
  induction m with
  | zero => decide
  | succ m ih =>
      rw [List.range_succ_eq_map, List.map_cons, List.map_map]
      have h : ((fun i => decide (i = m + 1)) ∘ Nat.succ) =
          (fun i => decide (i = m)) := by
        funext i
        simp [Nat.succ_inj]
      rw [h, ih]
      simp [List.replicate_succ]

lemma waterfall_default_is_total_succ_succ (m : Nat) :
    waterfall_default_is_total (m + 2) =
      true :: (List.replicate m false ++ [true]) := by
  unfold waterfall_default_is_total
  rw [List.range_succ_eq_map, List.map_cons, List.map_map]
  have h : ((fun i => decide (i = 0) || decide (i = m + 2 - 1)) ∘ Nat.succ) =
      (fun i => decide (i = m)) := by
    funext i
    simp [Nat.succ_inj]
  rw [h, range_map_decide_eq_last m]
  simp

lemma waterfall_place_relative (vs : List ℚ) :
    ∀ run : ℚ,
      waterfall_place run (vs.zip (List.replicate vs.length "relative")) =
        (List.range vs.length).map
          (fun i => (run + (vs.take i).sum, run + (vs.take (i + 1)).sum)) := by
  induction vs with
  | nil => intro run; rfl
  | cons v vs ih =>
      intro run
      simp only [List.length_cons, List.replicate_succ, List.zip_cons_cons]
      rw [waterfall_place, if_neg (by decide : ¬ ("relative" = "absolute")),
        ih (run + v), List.range_succ_eq_map, List.map_cons, List.map_map]
      congr 1
      · simp
      · refine List.map_congr_left (fun i _ => ?_)
        simp [List.take_succ_cons, add_assoc]

lemma waterfall_place_append (l₁ l₂ : List (ℚ × String)) :
    ∀ run : ℚ,
      waterfall_place run (l₁ ++ l₂) =
        waterfall_place run l₁ ++
          waterfall_place (waterfall_run_after run l₁) l₂ := by
  induction l₁ with
  | nil => intro run; simp [waterfall_place, waterfall_run_after]
  | cons p l₁ ih =>
      intro run
      obtain ⟨v, m⟩ := p
      by_cases hm : m = "absolute"
      · simp [waterfall_place, waterfall_run_after, hm, ih]
      · simp [waterfall_place, waterfall_run_after, hm, ih]

lemma waterfall_run_after_relative (vs : List ℚ) :
    ∀ run : ℚ,
      waterfall_run_after run (vs.zip (List.replicate vs.length "relative")) =
        run + vs.sum := by
  induction vs with
  | nil => intro run; simp [waterfall_run_after]
  | cons v vs ih =>
      intro run
      simp only [List.length_cons, List.replicate_succ, List.zip_cons_cons]
      rw [waterfall_run_after]
      rw [if_neg (by decide : ¬ ("relative" = "absolute")), ih (run + v)]
      simp [add_assoc]

lemma waterfall_place_absolute (l : List (ℚ × String)) :
    ∀ (run : ℚ) (i : Nat), i < l.length →
      (l.getD i (0, "")).2 = "absolute" →
      (waterfall_place run l).getD i (0, 0) = (0, (l.getD i (0, "")).1) := by
  induction l with
  | nil =>
      intro run i hi _
      simp at hi
  | cons p rest ih =>
      intro run i hi habs
      obtain ⟨v, m⟩ := p
      cases i with
      | zero =>
          simp only [List.getD_cons_zero] at habs ⊢
          rw [waterfall_place, if_pos habs]
          simp
      | succ j =>
          simp only [List.getD_cons_succ] at habs ⊢
          by_cases hm : m = "absolute"
          · rw [waterfall_place, if_pos hm, List.getD_cons_succ]
            exact ih v j (by simpa using hi) habs
          · rw [waterfall_place, if_neg hm, List.getD_cons_succ]
            exact ih (run + v) j (by simpa using hi) habs

lemma waterfall_measure_getD (values : List ℚ) (flags : List Bool) (i : Nat)
    (hi : i < flags.length) (ht : flags.getD i false = true) :
    (waterfall_measure values flags).getD i "" = "absolute" := by
  rw [waterfall_measure_eq]
  rw [List.getD_eq_getElem _ _ (by simpa using hi), List.getElem_map]
  rw [List.getD_eq_getElem _ _ hi] at ht
  simp [ht]

/-- C5: `render_waterfall` computes waterfall running totals: with the
`is_total` flags defaulting to true exactly at the first and last index, each
bar flagged as a total is placed at its absolute value (it spans from 0 to
that value), and each other bar starts where the cumulative sum of the
preceding values ends (spanning from that prefix sum to the prefix sum
including its own value); moreover for arbitrary `is_total` flags every bar
flagged as a total is placed at its absolute value. -/
theorem waterfall_running_totals (values : List ℚ) :
    (render_waterfall_bars values (waterfall_default_is_total values.length) =
      (List.range values.length).map (fun i =>
        if i = 0 ∨ i = values.length - 1 then ((0 : ℚ), values.getD i 0)
        else ((values.take i).sum, (values.take (i + 1)).sum))) ∧
    ∀ (is_total : List Bool) (i : Nat),
      i < values.length → i < is_total.length →
      is_total.getD i false = true →
      (render_waterfall_bars values is_total).getD i (0, 0) =
        (0, values.getD i 0) := by
  constructor
  case right =>
    intro is_total i hiv hif hflag
    have hm : (waterfall_measure values is_total).length = is_total.length := by
      rw [waterfall_measure_eq]
      simp
    have hzlen : i < (values.zip (waterfall_measure values is_total)).length := by
      rw [List.length_zip]
      omega
    have habs : ((values.zip (waterfall_measure values is_total)).getD
        i ((0 : ℚ), "")).2 = "absolute" := by
      rw [List.getD_eq_getElem _ _ hzlen, List.getElem_zip]
      have h1 := waterfall_measure_getD values is_total i hif hflag
      rw [List.getD_eq_getElem _ _ (by omega)] at h1
      exact h1
    rw [render_waterfall_bars, waterfall_place_absolute _ 0 i hzlen habs,
      List.getD_eq_getElem _ _ hzlen, List.getElem_zip,
      List.getD_eq_getElem _ _ hiv]
  cases values with
  | nil => rfl
  | cons v0 vs =>
    rcases List.eq_nil_or_concat vs with rfl | ⟨mid, vl, rfl⟩
    · -- a single value: one "absolute" bar at its own value
      have h1 : List.range 1 = [0] := rfl
      simp [render_waterfall_bars, waterfall_default_is_total,
        waterfall_measure, waterfall_place, h1]
    · -- at least two values: absolute head, relative middle, absolute tail
      simp only [List.concat_eq_append]
      have hlen : (v0 :: (mid ++ [vl])).length = mid.length + 2 := by
        simp
      rw [render_waterfall_bars]
      simp only [hlen]
      rw [waterfall_measure_eq, waterfall_default_is_total_succ_succ]
      have hmeas : (true :: (List.replicate mid.length false ++ [true])).map
          (fun t => if t then "absolute" else "relative") =
          "absolute" :: (List.replicate mid.length "relative" ++ ["absolute"]) := by
        simp
      rw [hmeas, List.zip_cons_cons,
        List.zip_append (by simp : mid.length = (List.replicate mid.length "relative").length),
        waterfall_place, if_pos rfl,
        waterfall_place_append, waterfall_place_relative,
        waterfall_run_after_relative]
      have htail : waterfall_place (v0 + mid.sum) ([vl].zip ["absolute"]) =
          [((0 : ℚ), vl)] := by
        simp [waterfall_place]
      rw [htail]
      -- now unfold the right-hand side
      rw [List.range_succ, List.map_append, List.range_succ_eq_map,
        List.map_cons, List.map_map, List.cons_append]
      congr 1
      -- head bar is closed by congruence; the tail reduces to a pointwise
      -- claim about the middle relative bars
      simp
      intro a ha
      rw [if_neg (by omega : ¬ a = mid.length),
        List.take_append_of_le_length (by omega : a ≤ mid.length),
        List.take_append_of_le_length (by omega : a + 1 ≤ mid.length)]

/-- Witness for C5: values `[10, 5, 3]` with explicit flags
`[true, true, false]`; the total bar at index 1 is placed at its absolute
value 5. -/
theorem waterfall_running_totals_witness :
    (1 : Nat) < ([(10 : ℚ), 5, 3]).length ∧
    (1 : Nat) < ([true, true, false] : List Bool).length ∧
    ([true, true, false] : List Bool).getD 1 false = true ∧
    (render_waterfall_bars [(10 : ℚ), 5, 3] [true, true, false]).getD 1 (0, 0) =
      (0, ([(10 : ℚ), 5, 3]).getD 1 0) :=
  ⟨by decide, by decide, by decide,
   (waterfall_running_totals [(10 : ℚ), 5, 3]).2 [true, true, false] 1
     (by decide) (by decide) (by decide)⟩

/-! ## engine.py — _normalize_chart_spec, step 1: reference_line → hlines -/

/-- A `reference_line` config entry: `value` is required (`ref["value"]`),
`label` and `color` are read with `.get` defaults. -/
structure RefLine where
  value : ℚ
  label : Option String := none
  color : Option String := none
  deriving DecidableEq, Repr

/-- An entry of the `hlines` config list as built by `_normalize_chart_spec`. -/
structure HLine where
  y : ℚ
  label : String
  color : String
  style : String
  deriving DecidableEq, Repr

/-- The chart-config keys touched by step 1 of `_normalize_chart_spec`. -/
structure ChartConfig where
  reference_line : Option RefLine := none
  hlines : List HLine := []
  deriving DecidableEq, Repr

/-- Step 1 of `_normalize_chart_spec` (engine.py lines 55-65):
`config.pop("reference_line", None)` always removes the key; when the popped
entry was truthy, an hline `{y: ref["value"], label: ref.get("label", ""),
color: ref.get("color", "#F0B90B"), style: "--"}` is appended to the
(possibly pre-existing) `hlines` list. A present-but-falsy entry (`None`,
`{}`) is popped with nothing appended, which coincides with the absent case
and is modelled by `none`. -/
def normalize_reference_line (config : ChartConfig) : ChartConfig :=
  match config.reference_line with
  | none => { config with reference_line := none }
  | some ref =>
      { config with
          reference_line := none
          hlines := config.hlines ++
            [{ y := ref.value
               label := ref.label.getD ""
               color := ref.color.getD "#F0B90B"
               style := "--" }] }

/-- C3: for every chart config with a truthy `reference_line` entry,
`_normalize_chart_spec` removes `reference_line` and appends to `hlines` one
entry with `y = reference_line["value"]`, `label` defaulting to `""`, `color`
defaulting to `"#F0B90B"`, and `style = "--"`; pre-existing hlines entries
are kept. -/
theorem normalize_reference_line_spec (config : ChartConfig) (ref : RefLine)
    (h : config.reference_line = some ref) :
    (normalize_reference_line config).reference_line = none ∧
    (normalize_reference_line config).hlines =
      config.hlines ++
        [{ y := ref.value
           label := ref.label.getD ""
           color := ref.color.getD "#F0B90B"
           style := "--" }] := by
  simp [normalize_reference_line, h]

/-- Witness for C3: a reference line at 1.5 with no label/color given,
appended after one pre-existing hline. -/
theorem normalize_reference_line_spec_witness :
    ({ reference_line := some { value := (3 : ℚ)/2 }
       hlines := [{ y := 0, label := "zero", color := "#000000", style := "-" }] } :
        ChartConfig).reference_line = some { value := (3 : ℚ)/2 } ∧
    ((normalize_reference_line
        { reference_line := some { value := (3 : ℚ)/2 }
          hlines := [{ y := 0, label := "zero", color := "#000000", style := "-" }] }).reference_line = none ∧
      (normalize_reference_line
        { reference_line := some { value := (3 : ℚ)/2 }
          hlines := [{ y := 0, label := "zero", color := "#000000", style := "-" }] }).hlines =
        [{ y := 0, label := "zero", color := "#000000", style := "-" }] ++
          [{ y := (3 : ℚ)/2, label := "", color := "#F0B90B", style := "--" }]) :=
  ⟨rfl, normalize_reference_line_spec _ { value := (3 : ℚ)/2 } rfl⟩

/-! ## engine.py — _normalize_table_heatmap separator rows -/

/-- A row is a separator when its first cell is `"---"` or `"—"`
(engine.py line 137: `row[0] in ("---", "—")`). Python raises on an empty
row; the embedding reads the first cell with a default, and the theorem below
assumes all rows are non-empty. -/
def is_sep_row (row : List String) : Bool :=
  row.getD 0 "" = "---" || row.getD 0 "" = "—"

/-- The `data` dict keys used by `_normalize_table_heatmap`. -/
structure THData where
  rows : List (List String) := []
  separators : Option (List Nat) := none
  headers : List String := []
  deriving Repr

/-- The `config` dict keys used by `_normalize_table_heatmap`. -/
structure THConfig where
  col_widths : Option (List ℚ) := none
  color_cols : Option (List Nat) := none
  signal_col : Option Nat := none
  deriving Repr

/-- A `table_heatmap` chart spec: its `data` and `config` dicts. -/
structure THChartSpec where
  data : THData := {}
  config : THConfig := {}
  deriving Repr

/-- The separator-collecting loop of `_normalize_table_heatmap` (engine.py
lines 133-141), carrying the running index `i` and the count `offset` of
separators already seen; yields (`sep_indices`, `clean_rows`). -/
def sep_loop : Nat → Nat → List (List String) → List Nat × List (List String)
  | _, _, [] => ([], [])
  | i, offset, row :: rest =>
      if is_sep_row row then
        let r := sep_loop (i + 1) (offset + 1) rest
        ((i - offset) :: r.1, r.2)
      else
        let r := sep_loop (i + 1) offset rest
        (r.1, row :: r.2)

/-- `_normalize_table_heatmap` (engine.py lines 125-154): replace inline
separator rows by a `separators` index list (only when at least one was
found), then default the 6-column scoreboard config keys. The early return
on empty `rows` skips both steps. -/
def normalize_table_heatmap (cs : THChartSpec) : THChartSpec :=
  if cs.data.rows = [] then cs
  else
    let r := sep_loop 0 0 cs.data.rows
    let data1 :=
      if r.1 ≠ [] then
        { cs.data with rows := r.2, separators := some r.1 }
      else cs.data
    let config1 :=
      if data1.headers.length = 6 ∧ cs.config.col_widths = none then
        { cs.config with
            col_widths := some [(2.2 : ℚ), 1.2, 0.9, 0.9, 0.9, 1.2]
            color_cols := some [2, 3, 4, 5]
            signal_col := some 5 }
      else cs.config
    { data := data1, config := config1 }

/-- Relative separator positions: each separator's position within the
cleaned (separator-free) row list. -/
def seps_rel : List (List String) → List Nat
  | [] => []
  | row :: rest =>
      if is_sep_row row then 0 :: seps_rel rest
      else (seps_rel rest).map (· + 1)

/-- The claim's description of the separators list: each separator row's
original index minus the number of separator rows that precede it. -/
def sep_positions (rows : List (List String)) : List Nat :=
  (List.range rows.length).filterMap (fun i =>
    if is_sep_row (rows.getD i []) then
      some (i - (rows.take i).countP is_sep_row)
    else none)

lemma sep_loop_eq (rows : List (List String)) :
    ∀ i offset : Nat, offset ≤ i →
      sep_loop i offset rows =
        ((seps_rel rows).map (· + (i - offset)),
          rows.filter (fun r => !is_sep_row r)) := by
  induction rows with
  | nil => intro i offset _; simp [sep_loop, seps_rel]
  | cons row rest ih =>
      intro i offset hoi
      by_cases hs : is_sep_row row
      · rw [sep_loop, if_pos hs, ih (i + 1) (offset + 1) (by omega)]
        rw [seps_rel, if_pos hs]
        have hsub : i + 1 - (offset + 1) = i - offset := by omega
        simp [hsub, hs]
      · rw [sep_loop, if_neg hs, ih (i + 1) offset (by omega)]
        rw [seps_rel, if_neg hs]
        rw [List.map_map]
        have hfun : ((· + (i - offset)) ∘ (· + 1) : Nat → Nat) =
            (· + (i + 1 - offset)) := by
          funext a
          simp only [Function.comp_apply]
          omega
        rw [hfun]
        simp [hs]

lemma seps_rel_eq_positions (rows : List (List String)) :
    seps_rel rows = sep_positions rows := by
  induction rows with
  | nil => rfl
  | cons row rest ih =>
      unfold sep_positions
      rw [List.length_cons, List.range_succ_eq_map, List.filterMap_cons,
        List.filterMap_map]
      by_cases hs : is_sep_row row
      · have hf : ((fun i =>
            if is_sep_row ((row :: rest).getD i []) then
              some (i - ((row :: rest).take i).countP is_sep_row)
            else none) ∘ Nat.succ) =
            (fun i =>
              if is_sep_row (rest.getD i []) then
                some (i - (rest.take i).countP is_sep_row)
              else none) := by
          funext a
          simp only [Function.comp_apply, Nat.succ_eq_add_one]
          rw [List.getD_cons_succ, List.take_succ_cons, List.countP_cons]
          by_cases h2 : is_sep_row (rest.getD a [])
          · rw [if_pos h2, if_pos h2, if_pos hs]
            congr 1
            omega
          · rw [if_neg h2, if_neg h2]
        rw [hf]
        simp only [List.getD_cons_zero, hs, if_pos]
        rw [seps_rel, if_pos hs, ih, sep_positions]
        simp
      · have hf : ((fun i =>
            if is_sep_row ((row :: rest).getD i []) then
              some (i - ((row :: rest).take i).countP is_sep_row)
            else none) ∘ Nat.succ) =
            (fun i =>
              (if is_sep_row (rest.getD i []) then
                some (i - (rest.take i).countP is_sep_row)
              else none).map (· + 1)) := by
          funext a
          simp only [Function.comp_apply, Nat.succ_eq_add_one]
          rw [List.getD_cons_succ, List.take_succ_cons, List.countP_cons]
          by_cases h2 : is_sep_row (rest.getD a [])
          · have hc : (rest.take a).countP is_sep_row ≤ a :=
              le_trans (List.countP_le_length _) (List.length_take_le _ _)
            rw [if_pos h2, if_pos h2, if_neg hs, Option.map_some']
            congr 1
            omega
          · rw [if_neg h2, if_neg h2, Option.map_none']
        rw [hf, ← List.map_filterMap]
        simp only [List.getD_cons_zero, hs]
        rw [seps_rel, if_neg hs, ih, sep_positions]
        simp

lemma sep_loop_zero (rows : List (List String)) :
    sep_loop 0 0 rows =
      (sep_positions rows, rows.filter (fun r => !is_sep_row r)) := by
  rw [sep_loop_eq rows 0 0 (le_refl 0), ← seps_rel_eq_positions]
  simp

lemma seps_rel_nil_iff (rows : List (List String)) :
    seps_rel rows = [] ↔ rows.any is_sep_row = false := by
  induction rows with
  | nil => simp [seps_rel]
  | cons row rest ih =>
      by_cases hs : is_sep_row row
      · simp [seps_rel, hs]
      · simp [seps_rel, hs, ih]

/-- C9: `_normalize_table_heatmap` removes the rows whose first cell is
`"---"` or `"—"`, keeping the others in their original relative order, and
sets `separators` to the list of each removed separator's original index
minus the number of separators preceding it; when no row is a separator
marker, `rows` and `separators` are left unchanged. -/
theorem normalize_table_heatmap_separators (cs : THChartSpec)
    (_hrows : ∀ row ∈ cs.data.rows, row ≠ []) :
    (cs.data.rows.any is_sep_row = true →
      (normalize_table_heatmap cs).data.rows =
        cs.data.rows.filter (fun r => !is_sep_row r) ∧
      (normalize_table_heatmap cs).data.separators =
        some (sep_positions cs.data.rows)) ∧
    (cs.data.rows.any is_sep_row = false →
      (normalize_table_heatmap cs).data.rows = cs.data.rows ∧
      (normalize_table_heatmap cs).data.separators = cs.data.separators) := by
  by_cases hnil : cs.data.rows = []
  · constructor
    · intro hany
      rw [hnil] at hany
      simp at hany
    · intro _
      simp [normalize_table_heatmap, hnil]
  · constructor
    · intro hany
      have hne : sep_positions cs.data.rows ≠ [] := by
        rw [← seps_rel_eq_positions]
        intro hcontra
        rw [seps_rel_nil_iff] at hcontra
        rw [hany] at hcontra
        exact Bool.noConfusion hcontra
      simp [normalize_table_heatmap, hnil, sep_loop_zero, hne]
    · intro hany
      have hsnil : sep_positions cs.data.rows = [] := by
        rw [← seps_rel_eq_positions, seps_rel_nil_iff]
        exact hany
      have hfilter : cs.data.rows.filter (fun r => !is_sep_row r) =
          cs.data.rows := by
        refine List.filter_eq_self.mpr (fun row hrow => ?_)
        have : is_sep_row row = false := by
          rcases Bool.eq_false_or_eq_true (is_sep_row row) with h | h
          · exfalso
            have hc : cs.data.rows.any is_sep_row = true :=
              List.any_eq_true.mpr ⟨row, hrow, h⟩
            rw [hany] at hc
            exact Bool.noConfusion hc
          · exact h
        simp [this]
      simp [normalize_table_heatmap, hnil, sep_loop_zero, hsnil, hfilter]

/-- Witness for C9: rows with separators at original indices 1 and 3 become
three clean rows with `separators = [1, 2]`; and a separator-free list is
left unchanged. -/
theorem normalize_table_heatmap_separators_witness :
    (∀ row ∈ ([[["a"], ["---"], ["b"], ["—"], ["c"]]] : List (List (List String))).head!,
      row ≠ []) ∧
    ((({ data := { rows := [["a"], ["---"], ["b"], ["—"], ["c"]] } } :
          THChartSpec).data.rows.any is_sep_row = true →
      (normalize_table_heatmap
          { data := { rows := [["a"], ["---"], ["b"], ["—"], ["c"]] } }).data.rows =
        ([["a"], ["---"], ["b"], ["—"], ["c"]] :
            List (List String)).filter (fun r => !is_sep_row r) ∧
      (normalize_table_heatmap
          { data := { rows := [["a"], ["---"], ["b"], ["—"], ["c"]] } }).data.separators =
        some (sep_positions [["a"], ["---"], ["b"], ["—"], ["c"]])) ∧
    (({ data := { rows := [["a"], ["---"], ["b"], ["—"], ["c"]] } } :
          THChartSpec).data.rows.any is_sep_row = false →
      (normalize_table_heatmap
          { data := { rows := [["a"], ["---"], ["b"], ["—"], ["c"]] } }).data.rows =
        [["a"], ["---"], ["b"], ["—"], ["c"]] ∧
      (normalize_table_heatmap
          { data := { rows := [["a"], ["---"], ["b"], ["—"], ["c"]] } }).data.separators =
        none)) :=
  ⟨by decide,
   normalize_table_heatmap_separators
     { data := { rows := [["a"], ["---"], ["b"], ["—"], ["c"]] } }
     (by decide)⟩

/-! ## engine.py — the slide loop of generate -/

/-- A slide spec as consumed by the loop of `generate`: the type string
(already defaulted by `slide_spec.get("type", "text")`), and for
`"dual_chart"` slides the `charts` list, whose entries are chart-spec dicts
(only their number matters to the deck and the counters, so entries are
abstracted to `Unit`). -/
structure SlideSpec where
  type : String := "text"
  charts : List Unit := []
  deriving Repr

/-- What `generate` appended to the deck for one slide: which `build_*`
function from templates.py was invoked (for a dual-chart slide, with how many
rendered charts). -/
inductive BuiltSlide where
  | cover
  | executive_summary
  | chart
  | text
  | sources
  | section_divider
  | kpi_dashboard
  | news
  | image
  | dual_chart (n : Nat)
  | callout
  | back_cover
  deriving DecidableEq, Repr

/-- Loop state of `generate` (engine.py lines 209-224): the deck built so
far, the `slide_count`, `chart_count` and `page_num` counters, and the
warnings printed on stderr. -/
structure GenState where
  deck : List BuiltSlide := []
  slide_count : Nat := 0
  chart_count : Nat := 0
  page_num : Nat := 0
  warnings : List String := []
  deriving Repr

/-- One iteration of the slide loop of `generate` (engine.py lines 228-319),
following the if/elif chain on `slide_type` in source order. -/
def process_slide (st : GenState) (s : SlideSpec) : GenState :=
  if s.type = "cover" then
    { st with deck := st.deck ++ [.cover],
              slide_count := st.slide_count + 1 }
  else if s.type = "executive_summary" then
    { st with page_num := st.page_num + 1,
              deck := st.deck ++ [.executive_summary],
              slide_count := st.slide_count + 1 }
  else if s.type = "chart" then
    { st with page_num := st.page_num + 1,
              chart_count := st.chart_count + 1,
              deck := st.deck ++ [.chart],
              slide_count := st.slide_count + 1 }
  else if s.type = "text" then
    { st with page_num := st.page_num + 1,
              deck := st.deck ++ [.text],
              slide_count := st.slide_count + 1 }
  else if s.type = "sources" then
    { st with page_num := st.page_num + 1,
              deck := st.deck ++ [.sources],
              slide_count := st.slide_count + 1 }
  else if s.type = "section_divider" then
    { st with deck := st.deck ++ [.section_divider],
              slide_count := st.slide_count + 1 }
  else if s.type = "kpi_dashboard" then
    { st with page_num := st.page_num + 1,
              deck := st.deck ++ [.kpi_dashboard],
              slide_count := st.slide_count + 1 }
  else if s.type = "news" then
    { st with page_num := st.page_num + 1,
              deck := st.deck ++ [.news],
              slide_count := st.slide_count + 1 }
  else if s.type = "image" then
    { st with page_num := st.page_num + 1,
              deck := st.deck ++ [.image],
              slide_count := st.slide_count + 1 }
  else if s.type = "dual_chart" then
    { st with page_num := st.page_num + 1,
              chart_count := st.chart_count + s.charts.length,
              deck := st.deck ++ [.dual_chart s.charts.length],
              slide_count := st.slide_count + 1 }
  else if s.type = "callout" then
    { st with page_num := st.page_num + 1,
              deck := st.deck ++ [.callout],
              slide_count := st.slide_count + 1 }
  else if s.type = "back_cover" then
    { st with deck := st.deck ++ [.back_cover],
              slide_count := st.slide_count + 1 }
  else
    { st with warnings := st.warnings ++
        ["WARNING: Unknown slide type '" ++ s.type ++ "', skipping"] }

/-- The slide loop of `generate` over the input `slides` list. -/
def generate (slides : List SlideSpec) : GenState :=
  slides.foldl process_slide {}

/-- The result dict of `generate` (engine.py lines 326-332): `success` is
always `true`, `slides`/`charts` are the final counters (`path` and
`duration` are omitted from the model). -/
structure GenResult where
  success : Bool
  slides : Nat
  charts : Nat
  deriving Repr

def generate_result (slides : List SlideSpec) : GenResult :=
  { success := true
    slides := (generate slides).slide_count
    charts := (generate slides).chart_count }

/-- The twelve slide types recognized by the if/elif chain of `generate`. -/
def recognized_slide_types : List String :=
  ["cover", "executive_summary", "chart", "text", "sources",
   "section_divider", "kpi_dashboard", "news", "image", "dual_chart",
   "callout", "back_cover"]

/-- The deck entry a slide spec produces (`none` for unrecognized types). -/
def slide_build (s : SlideSpec) : Option BuiltSlide :=
  if s.type = "cover" then some .cover
  else if s.type = "executive_summary" then some .executive_summary
  else if s.type = "chart" then some .chart
  else if s.type = "text" then some .text
  else if s.type = "sources" then some .sources
  else if s.type = "section_divider" then some .section_divider
  else if s.type = "kpi_dashboard" then some .kpi_dashboard
  else if s.type = "news" then some .news
  else if s.type = "image" then some .image
  else if s.type = "dual_chart" then some (.dual_chart s.charts.length)
  else if s.type = "callout" then some .callout
  else if s.type = "back_cover" then some .back_cover
  else none

/-- Charts rendered for one slide spec. -/
def slide_charts (s : SlideSpec) : Nat :=
  if s.type = "chart" then 1
  else if s.type = "dual_chart" then s.charts.length
  else 0

/-- Page-number increment of one slide spec. -/
def slide_page_inc (s : SlideSpec) : Nat :=
  if s.type = "cover" then 0
  else if s.type = "section_divider" then 0
  else if s.type = "back_cover" then 0
  else if (slide_build s).isSome then 1 else 0

/-- The stderr warning for an unrecognized slide type (engine.py line 319). -/
def warn_msg (s : SlideSpec) : String :=
  "WARNING: Unknown slide type '" ++ s.type ++ "', skipping"

lemma process_slide_eq (st : GenState) (s : SlideSpec) :
    process_slide st s =
      { deck := st.deck ++ (slide_build s).toList
        slide_count := st.slide_count + (slide_build s).toList.length
        chart_count := st.chart_count + slide_charts s
        page_num := st.page_num + slide_page_inc s
        warnings := st.warnings ++
          (if slide_build s = none then [warn_msg s] else []) } := by
  by_cases h1 : s.type = "cover"
  · simp [process_slide, slide_build, slide_charts, slide_page_inc, h1]
  by_cases h2 : s.type = "executive_summary"
  · simp [process_slide, slide_build, slide_charts, slide_page_inc, h1, h2]
  by_cases h3 : s.type = "chart"
  · simp [process_slide, slide_build, slide_charts, slide_page_inc, h1, h2, h3]
  by_cases h4 : s.type = "text"
  · simp [process_slide, slide_build, slide_charts, slide_page_inc,
      h1, h2, h3, h4]
  by_cases h5 : s.type = "sources"
  · simp [process_slide, slide_build, slide_charts, slide_page_inc,
      h1, h2, h3, h4, h5]
  by_cases h6 : s.type = "section_divider"
  · simp [process_slide, slide_build, slide_charts, slide_page_inc,
      h1, h2, h3, h4, h5, h6]
  by_cases h7 : s.type = "kpi_dashboard"
  · simp [process_slide, slide_build, slide_charts, slide_page_inc,
      h1, h2, h3, h4, h5, h6, h7]
  by_cases h8 : s.type = "news"
  · simp [process_slide, slide_build, slide_charts, slide_page_inc,
      h1, h2, h3, h4, h5, h6, h7, h8]
  by_cases h9 : s.type = "image"
  · simp [process_slide, slide_build, slide_charts, slide_page_inc,
      h1, h2, h3, h4, h5, h6, h7, h8, h9]
  by_cases h10 : s.type = "dual_chart"
  · simp [process_slide, slide_build, slide_charts, slide_page_inc,
      h1, h2, h3, h4, h5, h6, h7, h8, h9, h10]
  by_cases h11 : s.type = "callout"
  · simp [process_slide, slide_build, slide_charts, slide_page_inc,
      h1, h2, h3, h4, h5, h6, h7, h8, h9, h10, h11]
  by_cases h12 : s.type = "back_cover"
  · simp [process_slide, slide_build, slide_charts, slide_page_inc,
      h1, h2, h3, h4, h5, h6, h7, h8, h9, h10, h11, h12]
  · simp [process_slide, slide_build, slide_charts, slide_page_inc, warn_msg,
      h1, h2, h3, h4, h5, h6, h7, h8, h9, h10, h11, h12]

lemma slide_build_isSome_iff (s : SlideSpec) :
    (slide_build s).isSome = true ↔ s.type ∈ recognized_slide_types := by
  by_cases h1 : s.type = "cover"
  · simp [slide_build, recognized_slide_types, h1]
  by_cases h2 : s.type = "executive_summary"
  · simp [slide_build, recognized_slide_types, h1, h2]
  by_cases h3 : s.type = "chart"
  · simp [slide_build, recognized_slide_types, h1, h2, h3]
  by_cases h4 : s.type = "text"
  · simp [slide_build, recognized_slide_types, h1, h2, h3, h4]
  by_cases h5 : s.type = "sources"
  · simp [slide_build, recognized_slide_types, h1, h2, h3, h4, h5]
  by_cases h6 : s.type = "section_divider"
  · simp [slide_build, recognized_slide_types, h1, h2, h3, h4, h5, h6]
  by_cases h7 : s.type = "kpi_dashboard"
  · simp [slide_build, recognized_slide_types, h1, h2, h3, h4, h5, h6, h7]
  by_cases h8 : s.type = "news"
  · simp [slide_build, recognized_slide_types, h1, h2, h3, h4, h5, h6, h7, h8]
  by_cases h9 : s.type = "image"
  · simp [slide_build, recognized_slide_types,
      h1, h2, h3, h4, h5, h6, h7, h8, h9]
  by_cases h10 : s.type = "dual_chart"
  · simp [slide_build, recognized_slide_types,
      h1, h2, h3, h4, h5, h6, h7, h8, h9, h10]
  by_cases h11 : s.type = "callout"
  · simp [slide_build, recognized_slide_types,
      h1, h2, h3, h4, h5, h6, h7, h8, h9, h10, h11]
  by_cases h12 : s.type = "back_cover"
  · simp [slide_build, recognized_slide_types,
      h1, h2, h3, h4, h5, h6, h7, h8, h9, h10, h11, h12]
  · simp [slide_build, recognized_slide_types,
      h1, h2, h3, h4, h5, h6, h7, h8, h9, h10, h11, h12]

lemma generate_loop (slides : List SlideSpec) :
    ∀ st : GenState,
      List.foldl process_slide st slides =
        { deck := st.deck ++ slides.filterMap slide_build
          slide_count := st.slide_count + (slides.filterMap slide_build).length
          chart_count := st.chart_count + (slides.map slide_charts).sum
          page_num := st.page_num + (slides.map slide_page_inc).sum
          warnings := st.warnings ++
            (slides.filter (fun s => (slide_build s).isNone)).map warn_msg } := by
  induction slides with
  | nil => intro st; simp
  | cons s rest ih =>
      intro st
      rw [List.foldl_cons, process_slide_eq, ih]
      rcases hb : slide_build s with _ | b
      · simp [hb, List.filterMap_cons, List.filter_cons, add_assoc,
          List.append_assoc]
      · simp [hb, List.filterMap_cons, List.filter_cons, add_assoc,
          List.append_assoc]
        omega

/-- C7: `generate` processes the input slides in order, appending one deck
slide per spec of a recognized type, so the final deck contains the built
slides in exactly the input order; a spec with an unrecognized type
contributes nothing to the deck, produces a stderr warning, and does not
abort generation (the loop is total). -/
theorem generate_slides_in_order (slides : List SlideSpec) :
    (generate slides).deck = slides.filterMap slide_build ∧
    (generate slides).warnings =
      (slides.filter (fun s => (slide_build s).isNone)).map warn_msg ∧
    ∀ s : SlideSpec,
      ((slide_build s).isSome = true ↔ s.type ∈ recognized_slide_types) := by
  refine ⟨?_, ?_, fun s => slide_build_isSome_iff s⟩
  · rw [generate, generate_loop]
    simp
  · rw [generate, generate_loop]
    simp

lemma filterMap_slide_build_length (slides : List SlideSpec) :
    (slides.filterMap slide_build).length =
      (slides.filter
        (fun s => decide (s.type ∈ recognized_slide_types))).length := by
  induction slides with
  | nil => rfl
  | cons s rest ih =>
      rw [List.filterMap_cons, List.filter_cons]
      cases hb : slide_build s with
      | none =>
          have hd : decide (s.type ∈ recognized_slide_types) = false := by
            rw [decide_eq_false_iff_not]
            intro hmem
            have hs := (slide_build_isSome_iff s).mpr hmem
            rw [hb] at hs
            exact Bool.noConfusion hs
          simp [hd, ih]
      | some b =>
          have hd : decide (s.type ∈ recognized_slide_types) = true := by
            rw [decide_eq_true_eq]
            exact (slide_build_isSome_iff s).mp (by rw [hb]; rfl)
          simp [hd, ih]

lemma slide_charts_sum (slides : List SlideSpec) :
    (slides.map slide_charts).sum =
      (slides.filter (fun s => decide (s.type = "chart"))).length +
        ((slides.filter (fun s => decide (s.type = "dual_chart"))).map
          (fun s => s.charts.length)).sum := by
  induction slides with
  | nil => rfl
  | cons s rest ih =>
      simp only [List.map_cons, List.sum_cons, List.filter_cons, ih]
      by_cases h1 : s.type = "chart"
      · simp [slide_charts, h1]
        omega
      by_cases h2 : s.type = "dual_chart"
      · simp [slide_charts, h1, h2]
        omega
      · simp [slide_charts, h1, h2]

/-- C10: the dict returned by `generate` has `slides` equal to the number of
input slide specs whose type is one of the twelve recognized slide types
(unrecognized types do not count), and `charts` equal to the number of
`"chart"` slides plus the total number of entries across the `charts` lists
of all `"dual_chart"` slides (and `success` is `true`). -/
theorem generate_result_counts (slides : List SlideSpec) :
    (generate_result slides).success = true ∧
    (generate_result slides).slides =
      (slides.filter
        (fun s => decide (s.type ∈ recognized_slide_types))).length ∧
    (generate_result slides).charts =
      (slides.filter (fun s => decide (s.type = "chart"))).length +
        ((slides.filter (fun s => decide (s.type = "dual_chart"))).map
          (fun s => s.charts.length)).sum := by
  refine ⟨rfl, ?_, ?_⟩
  · rw [generate_result]
    show (generate slides).slide_count = _
    rw [generate, generate_loop, ← filterMap_slide_build_length]
    simp
  · rw [generate_result]
    show (generate slides).chart_count = _
    rw [generate, generate_loop, ← slide_charts_sum]
    simp

/-! ## engine.py — main -/

/-- The four possible outcomes of one run of `main` (engine.py lines
335-357): empty stdin, `json.loads` raising `JSONDecodeError`, `generate`
raising any exception, or `generate` returning its success dict. -/
inductive RunOutcome where
  | emptyInput
  | jsonError (msg : String)
  | genError (msg : String)
  | genSuccess (path : String) (slides charts : Nat) (duration : ℚ)
  deriving Repr

/-- The single JSON object `main` prints on stdout, together with the
process exit status. -/
structure MainOutput where
  success : Bool
  error : Option String
  path : Option String
  slides : Nat
  charts : Nat
  duration : Option ℚ
  exit_code : Nat
  deriving Repr

/-- `main` of engine.py (lines 335-357): each failure arm prints
`{"success": false, "error": ..., "slides": 0, "charts": 0}` and calls
`sys.exit(1)`; the success arm prints `generate`'s dict (whose `success` is
`true`) and falls through to exit status 0. -/
def main (o : RunOutcome) : MainOutput :=
  match o with
  | .emptyInput =>
      { success := false, error := some "Empty input", path := none,
        slides := 0, charts := 0, duration := none, exit_code := 1 }
  | .jsonError msg =>
      { success := false, error := some ("Invalid JSON: " ++ msg),
        path := none, slides := 0, charts := 0, duration := none,
        exit_code := 1 }
  | .genError msg =>
      { success := false, error := some msg, path := none,
        slides := 0, charts := 0, duration := none, exit_code := 1 }
  | .genSuccess path slides charts duration =>
      { success := true, error := none, path := some path,
        slides := slides, charts := charts, duration := some duration,
        exit_code := 0 }

/-- C2: for every exception raised while generating (a JSON parse error or
any exception out of `generate`), `main` prints a single JSON object with
`success` false, an `error` string, `slides` 0 and `charts` 0, and exits
with status 1; a successful run instead prints an object with `success`
true. -/
theorem main_error_and_success (o : RunOutcome) :
    (∀ msg : String, (o = .jsonError msg ∨ o = .genError msg) →
      (main o).success = false ∧ (main o).error.isSome = true ∧
      (main o).slides = 0 ∧ (main o).charts = 0 ∧
      (main o).exit_code = 1) ∧
    (∀ (path : String) (slides charts : Nat) (duration : ℚ),
      o = .genSuccess path slides charts duration →
      (main o).success = true ∧ (main o).exit_code = 0) := by
  constructor
  · rintro msg (rfl | rfl) <;> simp [main]
  · rintro path slides charts duration rfl
    exact ⟨rfl, rfl⟩

/-- Witness for C2: a `generate` exception with message `"boom"`, and a
successful run. -/
theorem main_error_and_success_witness :
    ((main (.genError "boom")).success = false ∧
      (main (.genError "boom")).error.isSome = true ∧
      (main (.genError "boom")).slides = 0 ∧
      (main (.genError "boom")).charts = 0 ∧
      (main (.genError "boom")).exit_code = 1) ∧
    ((main (.genSuccess "/tmp/out.pptx" 15 10 2)).success = true ∧
      (main (.genSuccess "/tmp/out.pptx" 15 10 2)).exit_code = 0) :=
  ⟨(main_error_and_success (.genError "boom")).1 "boom" (Or.inr rfl),
   (main_error_and_success (.genSuccess "/tmp/out.pptx" 15 10 2)).2
     "/tmp/out.pptx" 15 10 2 rfl⟩

end Genesis
